import Mathlib

/-!
Shallow embedding of the node orchestrator in `src/server/node.rs`:
identity recovery (`check_stores`), the startup sequence (`start`), the
cluster-bootstrap race handling (`bootstrap_cluster`), the store
lifecycle (`start_store`, `stop_store`) and orchestrator teardown
(`Drop::drop`).

Modelling conventions:
- `u64` identifiers are `Nat` (only equality against `INVALID_ID` and
  against each other matters to this code).
- The pd client, the engines and the store workers are external
  collaborators; their responses are supplied in an `Env` record
  (one field per fallible external call).  The source's string errors
  built with `other(format!(...))` are mirrored by an inductive
  `NodeError` with one constructor per distinct message.
- The mutable fields of `Node` (node id, `store_handles`) and the
  shared transport registry's channel map are an explicit `NodeState`;
  the key sets of the two hash maps are kept as duplicate-free lists.
- Externally visible actions (allocations, durable writes, pd
  registrations, channel registration, thread spawn) are logged as a
  ghost `Effect` list so that "nothing was performed" claims are
  statable.
-/

deriving instance DecidableEq for Except

namespace TikvNode

/-- `INVALID_ID` from the pd crate: the sentinel identifier `0`. -/
def INVALID_ID : Nat := 0

/-- `StoreIdent` (kvproto `raft_serverpb`): the identity record persisted in
an engine under `keys::store_ident_key()`. -/
structure StoreIdent where
  cluster_id : Nat
  node_id : Nat
  store_id : Nat
  deriving DecidableEq, Repr

/-- The distinct error conditions produced by `node.rs` (the source builds
them as strings via `other(format!(...))`; each constructor mirrors one
distinct message), plus propagated failures of external calls. -/
inductive NodeError where
  | clusterMismatch (ident : StoreIdent) (clusterId : Nat)
  | nodeIdentityMismatch (ident : StoreIdent) (nodeId : Nat)
  | corruptIdentity (ident : StoreIdent)
  | inconsistentBootstrapState (nodeId clusterId : Nat)
  | duplicateStore (storeId : Nat)
  | unknownStore (storeId : Nat)
  | workerAlreadyGone (storeId : Nat)
  | sendQuitFailed (storeId : Nat)
  | joinStoreFailed (storeId : Nat)
  | bootstrapClusterFailed (clusterId : Nat)
  | putStoreFailed (storeId : Nat)
  | pdUnavailable
  | engineFailed
  | createStoreFailed (storeId : Nat)
  | assertEmptyEngines
  deriving DecidableEq, Repr

/-- The loop body of `check_stores` (`node.rs:128-156`).  `nodeId` is the
mutable `node_id` local (initially `INVALID_ID`); each engine is represented
by the result of reading its persisted `StoreIdent` (`None` when absent).
Returns the final node id and the per-engine store ids, or the first error.

The condition `nodeId' = INVALID_ID ∨ ident.store_id = INVALID_ID` is the
source's `if node_id == INVALID_ID || store_id == INVALID_ID` evaluated after
`node_id` may have been updated from the record. -/
def checkStoresLoop (clusterId : Nat) :
    Nat → List (Option StoreIdent) → Except NodeError (Nat × List Nat)
  | nodeId, [] => .ok (nodeId, [])
  | nodeId, none :: rest =>
    match checkStoresLoop clusterId nodeId rest with
    | .ok (n, ss) => .ok (n, INVALID_ID :: ss)
    | .error e => .error e
  | nodeId, some ident :: rest =>
    if ident.cluster_id ≠ clusterId then
      .error (.clusterMismatch ident clusterId)
    else if nodeId = INVALID_ID then
      if ident.node_id = INVALID_ID ∨ ident.store_id = INVALID_ID then
        .error (.corruptIdentity ident)
      else
        match checkStoresLoop clusterId ident.node_id rest with
        | .ok (n, ss) => .ok (n, ident.store_id :: ss)
        | .error e => .error e
    else if ident.node_id ≠ nodeId then
      .error (.nodeIdentityMismatch ident nodeId)
    else
      if nodeId = INVALID_ID ∨ ident.store_id = INVALID_ID then
        .error (.corruptIdentity ident)
      else
        match checkStoresLoop clusterId nodeId rest with
        | .ok (n, ss) => .ok (n, ident.store_id :: ss)
        | .error e => .error e

/-- `Node::check_stores` (`node.rs:124-159`): recover the node id and the
per-engine store ids from the engines' persisted identity records. -/
def check_stores (clusterId : Nat) (engines : List (Option StoreIdent)) :
    Except NodeError (Nat × List Nat) :=
  checkStoresLoop clusterId INVALID_ID engines

/-- The store id that `check_stores` reports for one engine when no check
fails: `INVALID_ID` for an engine without a record, the persisted store id
otherwise (spec §4.1/§8 wording, used to state the success-shape claim). -/
def recoveredStoreId (e : Option StoreIdent) : Nat :=
  match e with
  | none => INVALID_ID
  | some ident => ident.store_id

/-- Outcome of the pd client's `bootstrap_cluster` call (`node.rs:207`):
success, the `PdError::ClusterBootstrapped` variant, or any other error. -/
inductive PdBootstrapResult where
  | ok
  | clusterBootstrapped
  | otherErr
  deriving DecidableEq, Repr

/-- The seed engine as `bootstrap_cluster` sees it: the set of region ids
whose data is currently present (the speculative first region written by
`bootstrap_first_region` is among them). -/
structure SeedEngine where
  regions : List Nat
  deriving DecidableEq, Repr

/-- `store::clear_region` (external engine op, spec §6): remove the data of
region `regionId` from the engine.  Modelled as the pure state update; the
spec's engine contract exposes it as an opaque compensating operation. -/
def clear_region (e : SeedEngine) (regionId : Nat) : SeedEngine :=
  ⟨e.regions.filter (fun r => r ≠ regionId)⟩

/-- `Node::bootstrap_cluster` (`node.rs:201-223`): invoke the authority's
atomic bootstrap with the first region `regionId`; on
`PdError::ClusterBootstrapped` clear the speculative region from the seed
engine and succeed; on any other pd error fail; on pd success succeed. -/
def bootstrap_cluster (resp : PdBootstrapResult) (clusterId : Nat)
    (e : SeedEngine) (regionId : Nat) : Except NodeError Unit × SeedEngine :=
  match resp with
  | .clusterBootstrapped => (.ok (), clear_region e regionId)
  | .otherErr => (.error (.bootstrapClusterFailed clusterId), e)
  | .ok => (.ok (), e)

/-- Responses of the external collaborators during one run: the pd client
(one field per call site in `node.rs`), the engines' durable-write outcomes
and the store-worker construction/messaging outcomes. -/
structure Env where
  clusterId : Nat
  isBootstrappedResp : Option Bool
  allocResp : Nat → Option Nat
  bootstrapStoreOk : Nat → Bool
  bootstrapRegionOk : Bool
  bootstrapClusterResp : PdBootstrapResult
  putNodeOk : Bool
  getClusterMetaOk : Bool
  putStoreOk : Nat → Bool
  createStoreOk : Nat → Bool
  sendOk : Nat → Bool
  joinOk : Nat → Bool

/-- The orchestrator's mutable state: the node id field of `self.node`, the
key set of `store_handles` (store id → thread join handle) and the key set
of the transport registry's channel map (`trans.add_sendch`/`remove_sendch`).
Both maps have duplicate-free key lists in any reachable state. -/
structure NodeState where
  nodeId : Nat
  storeHandles : List Nat
  sendchs : List Nat
  deriving DecidableEq, Repr

/-- Ghost log of the externally visible actions of the startup sequence. -/
inductive Effect where
  | allocId (k : Nat)
  | bootstrapStore (storeId : Nat)
  | bootstrapRegion (regionId peerId : Nat)
  | bootstrapClusterCall
  | clearRegionEff (regionId : Nat)
  | putNode
  | putStore (storeId : Nat)
  | addSendch (storeId : Nat)
  | spawnWorker (storeId : Nat)
  deriving DecidableEq, Repr

/-- `Node::start_store` (`node.rs:225-250`): fail fast on a duplicate store
id; then create the event loop and the `Store` (both fallible external
constructions, merged into `createStoreOk`); register the worker's channel in
the transport registry, spawn the worker thread and record its handle. -/
def start_store (env : Env) (s : NodeState) (storeId : Nat) :
    Except NodeError Unit × NodeState × List Effect :=
  if storeId ∈ s.storeHandles then
    (.error (.duplicateStore storeId), s, [])
  else if env.createStoreOk storeId then
    (.ok (),
     { s with sendchs := storeId :: s.sendchs,
              storeHandles := storeId :: s.storeHandles },
     [Effect.addSendch storeId, Effect.spawnWorker storeId])
  else
    (.error (.createStoreFailed storeId), s, [])

/-- `Node::stop_store` (`node.rs:252-271`): deregister the channel (the
registry removes it if present); if it was absent fail with the unknown-store
error; remove the thread handle; if absent fail with the already-gone error;
send `Msg::Quit` on the channel (fallible) and join the thread (fallible). -/
def stop_store (env : Env) (s : NodeState) (storeId : Nat) :
    Except NodeError Unit × NodeState :=
  if storeId ∈ s.sendchs then
    let s1 : NodeState := { s with sendchs := s.sendchs.erase storeId }
    if storeId ∈ s1.storeHandles then
      let s2 : NodeState := { s1 with storeHandles := s1.storeHandles.erase storeId }
      if env.sendOk storeId then
        if env.joinOk storeId then (.ok (), s2)
        else (.error (.joinStoreFailed storeId), s2)
      else (.error (.sendQuitFailed storeId), s2)
    else
      (.error (.workerAlreadyGone storeId), s1)
  else
    (.error (.unknownStore storeId), s)

/-- The loop of `Drop::drop` (`node.rs:278-285`) over a snapshot `ids` of the
handle-table keys: stop each store, logging (discarding) any error. -/
def stopAll (env : Env) : List Nat → NodeState → NodeState
  | [], s => s
  | id :: rest, s => stopAll env rest (stop_store env s id).2

/-- `Drop for Node` (`node.rs:274-286`): snapshot the handle-table keys and
stop every store; errors are logged, never propagated (the result type has no
error component). -/
def dropNode (env : Env) (s : NodeState) : NodeState :=
  stopAll env s.storeHandles s

/-- The per-engine store-bootstrap loop of `start` (`node.rs:84-89`, calling
`bootstrap_store`, `node.rs:161-168`): for each store id that is
`INVALID_ID`, allocate a fresh id from pd (the `k`-th allocation of the run)
and durably initialize the engine.  Returns the resolved store ids and the
next allocation index, plus the effect log. -/
def bootstrapStores (env : Env) :
    Nat → List Nat → Except NodeError (List Nat × Nat) × List Effect
  | k, [] => (.ok ([], k), [])
  | k, sid :: rest =>
    if sid = INVALID_ID then
      match env.allocResp k with
      | none => (.error .pdUnavailable, [])
      | some newId =>
        if env.bootstrapStoreOk newId then
          match bootstrapStores env (k + 1) rest with
          | (.ok (ss, kk), effs) =>
            (.ok (newId :: ss, kk),
             Effect.allocId k :: Effect.bootstrapStore newId :: effs)
          | (.error e, effs) =>
            (.error e, Effect.allocId k :: Effect.bootstrapStore newId :: effs)
        else
          (.error .engineFailed, [Effect.allocId k])
    else
      match bootstrapStores env k rest with
      | (.ok (ss, kk), effs) => (.ok (sid :: ss, kk), effs)
      | (.error e, effs) => (.error e, effs)

/-- The not-yet-bootstrapped branch of `start` (`node.rs:91-96`):
`bootstrap_first_region` (`node.rs:170-184`, two allocations and a durable
region write into the seed engine) followed by `bootstrap_cluster`
(`node.rs:201-223`); the race path logs the compensating `clear_region`. -/
def bootstrapClusterStep (env : Env) (k1 : Nat) :
    Except NodeError Unit × List Effect :=
  match env.allocResp k1 with
  | none => (.error .pdUnavailable, [])
  | some rid =>
    match env.allocResp (k1 + 1) with
    | none => (.error .pdUnavailable, [Effect.allocId k1])
    | some pid =>
      if env.bootstrapRegionOk then
        match env.bootstrapClusterResp with
        | .clusterBootstrapped =>
          (.ok (),
           [Effect.allocId k1, Effect.allocId (k1 + 1),
            Effect.bootstrapRegion rid pid, Effect.bootstrapClusterCall,
            Effect.clearRegionEff rid])
        | .otherErr =>
          (.error (.bootstrapClusterFailed env.clusterId),
           [Effect.allocId k1, Effect.allocId (k1 + 1),
            Effect.bootstrapRegion rid pid, Effect.bootstrapClusterCall])
        | .ok =>
          (.ok (),
           [Effect.allocId k1, Effect.allocId (k1 + 1),
            Effect.bootstrapRegion rid pid, Effect.bootstrapClusterCall])
      else
        (.error .engineFailed, [Effect.allocId k1, Effect.allocId (k1 + 1)])

/-- The final loop of `start` (`node.rs:102-108`): for each resolved store
id, `start_store` then `put_store`; both are wrapped in `try!`, so either
failure aborts the loop and propagates.  A `putStore` effect is logged only
for a registration that succeeded. -/
def startStoresLoop (env : Env) (s : NodeState) :
    List Nat → Except NodeError Unit × NodeState × List Effect
  | [] => (.ok (), s, [])
  | sid :: rest =>
    match start_store env s sid with
    | (.error e, s', effs) => (.error e, s', effs)
    | (.ok _, s', effs) =>
      if env.putStoreOk sid then
        match startStoresLoop env s' rest with
        | (r, s'', effs') => (r, s'', effs ++ Effect.putStore sid :: effs')
      else
        (.error (.putStoreFailed sid), s', effs)

/-- The tail of `start` after node-identity assignment (`node.rs:84-110`):
store bootstrap, optional cluster bootstrap, `put_node`,
`get_cluster_meta`, then the store-start loop.  `k` is the index of the next
pd allocation and `effs0` the effects already performed. -/
def startAfterIdent (env : Env) (s : NodeState) (bootstrapped : Bool)
    (k : Nat) (effs0 : List Effect) (storeIds0 : List Nat) :
    Except NodeError Unit × NodeState × List Effect :=
  match bootstrapStores env k storeIds0 with
  | (.error e, effs1) => (.error e, s, effs0 ++ effs1)
  | (.ok (storeIds, k1), effs1) =>
    match (if bootstrapped then ((.ok () : Except NodeError Unit), ([] : List Effect))
           else bootstrapClusterStep env k1) with
    | (.error e, effs2) => (.error e, s, effs0 ++ effs1 ++ effs2)
    | (.ok _, effs2) =>
      if env.putNodeOk then
        if env.getClusterMetaOk then
          match startStoresLoop env s storeIds with
          | (r, s2, effs3) =>
            (r, s2, effs0 ++ effs1 ++ effs2 ++ Effect.putNode :: effs3)
        else
          (.error .pdUnavailable, s, effs0 ++ effs1 ++ effs2 ++ [Effect.putNode])
      else
        (.error .pdUnavailable, s, effs0 ++ effs1 ++ effs2)

/-- `Node::start` (`node.rs:61-111`): assert the engine list nonempty (the
source panics; modelled as a distinguished error), ask pd whether the
cluster is bootstrapped, recover identity via `check_stores`, allocate or
adopt the node id — rejecting a concrete node id when the cluster is not
bootstrapped — then bootstrap stores, optionally bootstrap the cluster,
register the node and start every store. -/
def start (env : Env) (s : NodeState) (engines : List (Option StoreIdent)) :
    Except NodeError Unit × NodeState × List Effect :=
  if engines.isEmpty then (.error .assertEmptyEngines, s, [])
  else
    match env.isBootstrappedResp with
    | none => (.error .pdUnavailable, s, [])
    | some bootstrapped =>
      match check_stores env.clusterId engines with
      | .error e => (.error e, s, [])
      | .ok (nid0, storeIds0) =>
        if nid0 = INVALID_ID then
          match env.allocResp 0 with
          | none => (.error .pdUnavailable, s, [])
          | some n =>
            startAfterIdent env { s with nodeId := n } bootstrapped 1
              [Effect.allocId 0] storeIds0
        else
          let s1 : NodeState := { s with nodeId := nid0 }
          if !bootstrapped then
            (.error (.inconsistentBootstrapState nid0 env.clusterId), s1, [])
          else
            startAfterIdent env s1 bootstrapped 0 [] storeIds0

/-- A pd/worker environment in which every external call succeeds (no
allocations are needed by the runs it is used on). -/
def envAllOk : Env where
  clusterId := 1
  isBootstrappedResp := some true
  allocResp := fun _ => none
  bootstrapStoreOk := fun _ => true
  bootstrapRegionOk := true
  bootstrapClusterResp := .ok
  putNodeOk := true
  getClusterMetaOk := true
  putStoreOk := fun _ => true
  createStoreOk := fun _ => true
  sendOk := fun _ => true
  joinOk := fun _ => true

/-- Environment in which `put_store` fails for store 1 and everything else
succeeds. -/
def envPutStoreFail : Env :=
  { envAllOk with putStoreOk := fun sid => sid != 1 }

/-- Environment reporting the cluster as not bootstrapped. -/
def envNotBoot : Env :=
  { envAllOk with isBootstrappedResp := some false }

/-- Environment in which joining store 7's worker thread fails. -/
def envJoinFail : Env :=
  { envAllOk with joinOk := fun sid => sid != 7 }

/-! ## Helper lemmas about `check_stores` -/

/-- When the `check_stores` loop succeeds, the returned store ids are exactly
the per-engine recovered ids (same length and order), and if every engine
lacked a record the node id is returned unchanged. -/
theorem checkStoresLoop_ok_shape (c : Nat) (engines : List (Option StoreIdent)) :
    ∀ nid n ss, checkStoresLoop c nid engines = .ok (n, ss) →
      ss = engines.map recoveredStoreId ∧ ((∀ e ∈ engines, e = none) → n = nid) := by
  induction engines with
  | nil =>
    intro nid n ss h
    simp only [checkStoresLoop] at h
    obtain ⟨h1, h2⟩ := by exact Prod.mk.injEq .. ▸ Except.ok.inj h
    subst h1; subst h2
    simp
  | cons hd rest ih =>
    intro nid n ss h
    cases hd with
    | none =>
      simp only [checkStoresLoop] at h
      cases hr : checkStoresLoop c nid rest with
      | error e => rw [hr] at h; cases h
      | ok v =>
        obtain ⟨n', ss'⟩ := v
        rw [hr] at h
        obtain ⟨h1, h2⟩ := by exact Prod.mk.injEq .. ▸ Except.ok.inj h
        obtain ⟨hmap, hnid⟩ := ih nid n' ss' hr
        subst h1; subst h2
        refine ⟨by simp [recoveredStoreId, hmap], ?_⟩
        intro hall
        exact hnid (fun e he => hall e (List.mem_cons_of_mem _ he))
    | some ident =>
      simp only [checkStoresLoop] at h
      split at h
      · cases h
      · split at h
        · split at h
          · cases h
          · cases hr : checkStoresLoop c ident.node_id rest with
            | error e => rw [hr] at h; cases h
            | ok v =>
              obtain ⟨n', ss'⟩ := v
              rw [hr] at h
              obtain ⟨h1, h2⟩ := by exact Prod.mk.injEq .. ▸ Except.ok.inj h
              obtain ⟨hmap, _⟩ := ih ident.node_id n' ss' hr
              subst h1; subst h2
              refine ⟨by simp [recoveredStoreId, hmap], ?_⟩
              intro hall
              exact absurd (hall (some ident) (List.mem_cons_self _ _)) (by simp)
        · split at h
          · cases h
          · split at h
            · cases h
            · cases hr : checkStoresLoop c nid rest with
              | error e => rw [hr] at h; cases h
              | ok v =>
                obtain ⟨n', ss'⟩ := v
                rw [hr] at h
                obtain ⟨h1, h2⟩ := by exact Prod.mk.injEq .. ▸ Except.ok.inj h
                obtain ⟨hmap, _⟩ := ih nid n' ss' hr
                subst h1; subst h2
                refine ⟨by simp [recoveredStoreId, hmap], ?_⟩
                intro hall
                exact absurd (hall (some ident) (List.mem_cons_self _ _)) (by simp)

/-- When the `check_stores` loop succeeds, every present identity record has
a valid (non-`INVALID_ID`) node id and store id. -/
theorem checkStoresLoop_ok_valid (c : Nat) (engines : List (Option StoreIdent)) :
    ∀ nid n ss, checkStoresLoop c nid engines = .ok (n, ss) →
      ∀ ident, some ident ∈ engines →
        ident.node_id ≠ INVALID_ID ∧ ident.store_id ≠ INVALID_ID := by
  induction engines with
  | nil => intro _ _ _ _ ident hmem; simp at hmem
  | cons hd rest ih =>
    intro nid n ss h ident hmem
    cases hd with
    | none =>
      simp only [checkStoresLoop] at h
      cases hr : checkStoresLoop c nid rest with
      | error e => rw [hr] at h; cases h
      | ok v =>
        obtain ⟨n', ss'⟩ := v
        rcases List.mem_cons.mp hmem with hz | hz
        · cases hz
        · exact ih nid n' ss' hr ident hz
    | some ident' =>
      simp only [checkStoresLoop] at h
      split at h
      · cases h
      · rename_i hnid0
        split at h
        · rename_i hvalid0
          split at h
          · cases h
          · rename_i hinv0
            push_neg at hinv0
            cases hr : checkStoresLoop c ident'.node_id rest with
            | error e => rw [hr] at h; cases h
            | ok v =>
              obtain ⟨n', ss'⟩ := v
              rcases List.mem_cons.mp hmem with hz | hz
              · cases Option.some.inj hz
                exact hinv0
              · exact ih ident'.node_id n' ss' hr ident hz
        · rename_i hvalid0
          split at h
          · cases h
          · rename_i hsame
            split at h
            · cases h
            · rename_i hinv0
              push_neg at hinv0
              cases hr : checkStoresLoop c nid rest with
              | error e => rw [hr] at h; cases h
              | ok v =>
                obtain ⟨n', ss'⟩ := v
                rcases List.mem_cons.mp hmem with hz | hz
                · cases Option.some.inj hz
                  push_neg at hsame
                  exact ⟨hsame ▸ hinv0.1, hinv0.2⟩
                · exact ih nid n' ss' hr ident hz

/-! ## Claim theorems -/

/-- C3 (counterexample): the claim says a record with `INVALID` node id
always yields the CorruptIdentity ("invalid store ident") error regardless
of position and of the other engines' records.  It does not: when an earlier
engine's record already fixed a valid node id, the `INVALID` node id of a
later record trips the node-id comparison first, producing
NodeIdentityMismatch. -/
theorem check_stores_corrupt_position_cex :
    (⟨1, 0, 2⟩ : StoreIdent).node_id = INVALID_ID ∧
    check_stores 1 [some ⟨1, 1, 1⟩, some ⟨1, 0, 2⟩] =
      .error (.nodeIdentityMismatch ⟨1, 0, 2⟩ 1) := by
  decide

/-- C3 (amended): a persisted record with `INVALID` node id or `INVALID`
store id always makes `check_stores` fail, but the reported error is
CorruptIdentity only when the malformed field is still checked — with a
prior valid-node record the failure surfaces as NodeIdentityMismatch (and a
cluster-id mismatch anywhere may surface as ClusterMismatch) instead. -/
theorem check_stores_invalid_ident_fails (c : Nat)
    (engines : List (Option StoreIdent)) (ident : StoreIdent)
    (hmem : some ident ∈ engines)
    (hinv : ident.node_id = INVALID_ID ∨ ident.store_id = INVALID_ID) :
    ∃ e, check_stores c engines = .error e := by
  cases h : check_stores c engines with
  | error e => exact ⟨e, rfl⟩
  | ok v =>
    obtain ⟨n, ss⟩ := v
    have hv := checkStoresLoop_ok_valid c engines INVALID_ID n ss h ident hmem
    rcases hinv with hz | hz
    · exact absurd hz hv.1
    · exact absurd hz hv.2

/-- C3 witness: a concrete engine list carrying a record with `INVALID`
node id, on which `check_stores` indeed fails. -/
theorem check_stores_invalid_ident_fails_witness :
    some (⟨1, 0, 2⟩ : StoreIdent) ∈
      [some (⟨1, 1, 1⟩ : StoreIdent), some ⟨1, 0, 2⟩] ∧
    ∃ e, check_stores 1 [some ⟨1, 1, 1⟩, some ⟨1, 0, 2⟩] = .error e :=
  ⟨by decide,
   check_stores_invalid_ident_fails 1 _ ⟨1, 0, 2⟩ (by decide) (by decide)⟩

/-- C4: when `check_stores` succeeds, the per-engine store ids are exactly
the recovered ones — `INVALID_ID` for an engine with no record, the
persisted store id otherwise — in the same length and order as the input,
and the node id is `INVALID_ID` when no engine had a record. -/
theorem check_stores_success_shape (c : Nat)
    (engines : List (Option StoreIdent)) (n : Nat) (ss : List Nat)
    (h : check_stores c engines = .ok (n, ss)) :
    ss = engines.map recoveredStoreId ∧
    ((∀ e ∈ engines, e = none) → n = INVALID_ID) :=
  checkStoresLoop_ok_shape c engines INVALID_ID n ss h

/-- C4 witness: a concrete run of `check_stores` with one absent and one
present record, matching the recovered shape. -/
theorem check_stores_success_shape_witness :
    check_stores 1 [none, some ⟨1, 2, 3⟩] = .ok (2, [INVALID_ID, 3]) ∧
    [INVALID_ID, 3] = [none, some (⟨1, 2, 3⟩ : StoreIdent)].map recoveredStoreId := by
  have h := check_stores_success_shape 1 [none, some ⟨1, 2, 3⟩] 2
    [INVALID_ID, 3] (by decide)
  exact ⟨by decide, h.1⟩

/-- C5 (counterexample): the claim says two records with differing valid
node ids always yield NodeIdentityMismatch.  Not always: when the first
record's store id is `INVALID`, the CorruptIdentity check fires before the
second engine is examined, so `check_stores` fails with CorruptIdentity even
though the two (valid) node ids differ. -/
theorem check_stores_node_mismatch_cex :
    (⟨1, 1, 0⟩ : StoreIdent).node_id ≠ INVALID_ID ∧
    (⟨1, 2, 5⟩ : StoreIdent).node_id ≠ INVALID_ID ∧
    (⟨1, 1, 0⟩ : StoreIdent).node_id ≠ (⟨1, 2, 5⟩ : StoreIdent).node_id ∧
    check_stores 1 [some ⟨1, 1, 0⟩, some ⟨1, 2, 5⟩] =
      .error (.corruptIdentity ⟨1, 1, 0⟩) := by
  decide

/-- C5 (amended): two records with differing valid node ids — both carrying
the configured cluster id and valid store ids, so that no earlier check
fires — yield NodeIdentityMismatch in both orderings of the two engines. -/
theorem check_stores_node_mismatch_sym (c : Nat) (a b : StoreIdent)
    (hca : a.cluster_id = c) (hcb : b.cluster_id = c)
    (hna : a.node_id ≠ INVALID_ID) (hnb : b.node_id ≠ INVALID_ID)
    (hsa : a.store_id ≠ INVALID_ID) (hsb : b.store_id ≠ INVALID_ID)
    (hab : a.node_id ≠ b.node_id) :
    check_stores c [some a, some b] =
      .error (.nodeIdentityMismatch b a.node_id) ∧
    check_stores c [some b, some a] =
      .error (.nodeIdentityMismatch a b.node_id) := by
  constructor
  · simp [check_stores, checkStoresLoop, hca, hcb, hna, hnb, hsa, hsb,
      hab, Ne.symm hab]
  · simp [check_stores, checkStoresLoop, hca, hcb, hna, hnb, hsa, hsb,
      hab, Ne.symm hab]

/-- C5 witness: a concrete pair of well-formed records with node ids 1 and 2
producing NodeIdentityMismatch in both engine orders. -/
theorem check_stores_node_mismatch_sym_witness :
    check_stores 1 [some ⟨1, 1, 4⟩, some ⟨1, 2, 5⟩] =
      .error (.nodeIdentityMismatch ⟨1, 2, 5⟩ 1) ∧
    check_stores 1 [some ⟨1, 2, 5⟩, some ⟨1, 1, 4⟩] =
      .error (.nodeIdentityMismatch ⟨1, 1, 4⟩ 2) :=
  check_stores_node_mismatch_sym 1 ⟨1, 1, 4⟩ ⟨1, 2, 5⟩ rfl rfl
    (by decide) (by decide) (by decide) (by decide) (by decide)

/-- C1: when the authority's `bootstrap_cluster` call reports the cluster as
already bootstrapped, the orchestrator clears the speculative seed region
from the seed engine (that region id is gone from the engine afterward) and
the step succeeds; any other authority error makes the step fail. -/
theorem bootstrap_cluster_race_handling (c : Nat) (e : SeedEngine) (rid : Nat) :
    (bootstrap_cluster .clusterBootstrapped c e rid).1 = .ok () ∧
    (bootstrap_cluster .clusterBootstrapped c e rid).2 = clear_region e rid ∧
    rid ∉ (bootstrap_cluster .clusterBootstrapped c e rid).2.regions ∧
    (bootstrap_cluster .otherErr c e rid).1 =
      .error (.bootstrapClusterFailed c) := by
  refine ⟨rfl, rfl, ?_, rfl⟩
  simp [bootstrap_cluster, clear_region]

/-- C7: `stop_store` on an id with no registered channel fails with
UnknownStore; on an id whose channel exists but whose thread handle is
absent it fails with the distinct WorkerAlreadyGone; and on a fresh id that
is started once, stopping succeeds the first time and fails with
UnknownStore the second time. -/
theorem stop_store_lifecycle (env : Env) (s : NodeState) (id : Nat) :
    (id ∉ s.sendchs → (stop_store env s id).1 = .error (.unknownStore id)) ∧
    (id ∈ s.sendchs → id ∉ s.storeHandles →
      (stop_store env s id).1 = .error (.workerAlreadyGone id)) ∧
    (id ∉ s.sendchs → id ∉ s.storeHandles →
      env.createStoreOk id = true → env.sendOk id = true →
      env.joinOk id = true →
      (start_store env s id).1 = .ok () ∧
      (stop_store env (start_store env s id).2.1 id).1 = .ok () ∧
      (stop_store env (stop_store env (start_store env s id).2.1 id).2 id).1 =
        .error (.unknownStore id)) := by
  refine ⟨?_, ?_, ?_⟩
  · intro h
    simp [stop_store, h]
  · intro h1 h2
    simp [stop_store, h1, h2]
  · intro h1 h2 h3 h4 h5
    simp [start_store, stop_store, h1, h2, h3, h4, h5, List.erase_cons_head]

/-- C7 witness: the three behaviors at concrete states — never-started id,
channel-without-handle id, and a started-once id stopped twice. -/
theorem stop_store_lifecycle_witness :
    (stop_store envAllOk ⟨1, [], []⟩ 5).1 = .error (.unknownStore 5) ∧
    (stop_store envAllOk ⟨1, [], [5]⟩ 5).1 = .error (.workerAlreadyGone 5) ∧
    (start_store envAllOk ⟨1, [], []⟩ 5).1 = .ok () ∧
    (stop_store envAllOk (start_store envAllOk ⟨1, [], []⟩ 5).2.1 5).1 = .ok () ∧
    (stop_store envAllOk
        (stop_store envAllOk (start_store envAllOk ⟨1, [], []⟩ 5).2.1 5).2 5).1 =
      .error (.unknownStore 5) := by
  have h1 := (stop_store_lifecycle envAllOk ⟨1, [], []⟩ 5).1 (by decide)
  have h2 := (stop_store_lifecycle envAllOk ⟨1, [], [5]⟩ 5).2.1 (by decide) (by decide)
  have h3 := (stop_store_lifecycle envAllOk ⟨1, [], []⟩ 5).2.2 (by decide) (by decide)
    (by decide) (by decide) (by decide)
  exact ⟨h1, h2, h3.1, h3.2.1, h3.2.2⟩

/-- C9: `stop_store` on an id with a registered channel but no thread handle
fails with WorkerAlreadyGone, yet has already deregistered the channel, so
the same call repeated fails with UnknownStore instead — the failed call
changed registry state. -/
theorem stop_store_gone_not_atomic (env : Env) (s : NodeState) (id : Nat)
    (hch : id ∈ s.sendchs) (hnd : s.sendchs.Nodup)
    (hh : id ∉ s.storeHandles) :
    (stop_store env s id).1 = .error (.workerAlreadyGone id) ∧
    id ∉ (stop_store env s id).2.sendchs ∧
    (stop_store env (stop_store env s id).2 id).1 =
      .error (.unknownStore id) := by
  have hst : (stop_store env s id).2 = { s with sendchs := s.sendchs.erase id } := by
    simp [stop_store, hch, hh]
  have hne : id ∉ s.sendchs.erase id := hnd.not_mem_erase (a := id)
  refine ⟨by simp [stop_store, hch, hh], ?_, ?_⟩
  · rw [hst]
    exact hne
  · rw [hst]
    simp [stop_store, hne]

/-- C9 witness: concrete state with a channel for store 5 and no handle. -/
theorem stop_store_gone_not_atomic_witness :
    (stop_store envAllOk ⟨1, [], [5]⟩ 5).1 = .error (.workerAlreadyGone 5) ∧
    5 ∉ (stop_store envAllOk ⟨1, [], [5]⟩ 5).2.sendchs ∧
    (stop_store envAllOk (stop_store envAllOk ⟨1, [], [5]⟩ 5).2 5).1 =
      .error (.unknownStore 5) :=
  stop_store_gone_not_atomic envAllOk ⟨1, [], [5]⟩ 5 (by decide) (by decide)
    (by decide)

/-- C10: `start_store` on an id already in the handle table returns
DuplicateStore with no side effect: the state (handle table and channel
registry) is unchanged and the effect log is empty — no channel added, no
worker constructed or spawned. -/
theorem start_store_duplicate_atomic (env : Env) (s : NodeState) (id : Nat)
    (h : id ∈ s.storeHandles) :
    start_store env s id = (.error (.duplicateStore id), s, []) := by
  simp [start_store, h]

/-- C10 witness: duplicate start of store 5 at a concrete state. -/
theorem start_store_duplicate_atomic_witness :
    start_store envAllOk ⟨1, [5], [5]⟩ 5 =
      (.error (.duplicateStore 5), ⟨1, [5], [5]⟩, []) :=
  start_store_duplicate_atomic envAllOk ⟨1, [5], [5]⟩ 5 (by decide)

/-! ## Helper lemmas about teardown -/

/-- The state after `stop_store` on an id that has both a channel and a
handle: both entries are erased, whatever the send/join outcomes. -/
theorem stop_store_state_both (env : Env) (s : NodeState) (id : Nat)
    (h1 : id ∈ s.sendchs) (h2 : id ∈ s.storeHandles) :
    (stop_store env s id).2 =
      { s with sendchs := s.sendchs.erase id,
               storeHandles := s.storeHandles.erase id } := by
  by_cases hsend : env.sendOk id
  · by_cases hjoin : env.joinOk id
    · simp [stop_store, h1, h2, hsend, hjoin]
    · simp [stop_store, h1, h2, hsend, hjoin]
  · simp [stop_store, h1, h2, hsend]

/-- `stop_store` never adds a channel: the registry's key list afterward is
a sublist of the one before. -/
theorem stop_store_sendchs_sublist (env : Env) (s : NodeState) (id : Nat) :
    (stop_store env s id).2.sendchs.Sublist s.sendchs := by
  by_cases h1 : id ∈ s.sendchs
  · by_cases h2 : id ∈ s.storeHandles
    · rw [stop_store_state_both env s id h1 h2]
      exact List.erase_sublist _ _
    · simp [stop_store, h1, h2, List.erase_sublist]
  · simp [stop_store, h1]

/-- A store id absent from the registry stays absent through the teardown
loop. -/
theorem stopAll_sendchs_not_mem (env : Env) (l : List Nat) :
    ∀ (s : NodeState) (j : Nat), j ∉ s.sendchs →
      j ∉ (stopAll env l s).sendchs := by
  induction l with
  | nil => intro s j h; exact h
  | cons id rest ih =>
    intro s j h
    have h' : j ∉ (stop_store env s id).2.sendchs :=
      fun hc => h ((stop_store_sendchs_sublist env s id).subset hc)
    simpa [stopAll] using ih (stop_store env s id).2 j h'

/-- The teardown loop over a snapshot `l` of the handle table's keys: from
any state satisfying the table invariant, it empties the handle table and
deregisters every snapshot id's channel, regardless of send/join failures. -/
theorem stopAll_clears (env : Env) :
    ∀ (l : List Nat) (s : NodeState), l.Nodup → s.storeHandles = l →
      s.sendchs.Nodup → (∀ id ∈ l, id ∈ s.sendchs) →
      (stopAll env l s).storeHandles = [] ∧
      ∀ id ∈ l, id ∉ (stopAll env l s).sendchs := by
  intro l
  induction l with
  | nil =>
    intro s _ hsh _ _
    exact ⟨by simpa [stopAll] using hsh, by simp⟩
  | cons id rest ih =>
    intro s hnd hsh hsnd hinv
    have hch : id ∈ s.sendchs := hinv id (List.mem_cons_self _ _)
    have hhd : id ∈ s.storeHandles := by rw [hsh]; exact List.mem_cons_self _ _
    have hstate := stop_store_state_both env s id hch hhd
    have hsh2 : (stop_store env s id).2.storeHandles = rest := by
      rw [hstate]
      simp [hsh, List.erase_cons_head]
    have hsnd2 : (stop_store env s id).2.sendchs.Nodup := by
      rw [hstate]
      exact hsnd.erase id
    have hinv2 : ∀ j ∈ rest, j ∈ (stop_store env s id).2.sendchs := by
      intro j hj
      rw [hstate]
      have hne : j ≠ id := by
        intro he
        subst he
        exact (List.nodup_cons.mp hnd).1 hj
      exact (List.mem_erase_of_ne hne).mpr (hinv j (List.mem_cons_of_mem _ hj))
    have hrec := ih (stop_store env s id).2 (List.nodup_cons.mp hnd).2 hsh2
      hsnd2 hinv2
    constructor
    · simpa [stopAll] using hrec.1
    · intro j hj
      rcases List.mem_cons.mp hj with he | hj'
      · subst he
        have habs : j ∉ (stop_store env s j).2.sendchs := by
          rw [hstate]
          exact hsnd.not_mem_erase
        simpa [stopAll] using stopAll_sendchs_not_mem env rest _ j habs
      · simpa [stopAll] using hrec.2 j hj'

/-- C8: orchestrator teardown stops every id in the handle table (the loop
is total and `dropNode` has no error component — individual stop failures
are logged, never propagated), and afterward the handle table is empty and
none of those ids has a registered channel.  The hypotheses are the spec's
§3 Worker Handle Table invariant: key lists are duplicate-free and every
handle-table id has a registered channel. -/
theorem dropNode_clears (env : Env) (s : NodeState)
    (hh : s.storeHandles.Nodup) (hs : s.sendchs.Nodup)
    (hinv : ∀ id ∈ s.storeHandles, id ∈ s.sendchs) :
    (dropNode env s).storeHandles = [] ∧
    ∀ id ∈ s.storeHandles, id ∉ (dropNode env s).sendchs :=
  stopAll_clears env s.storeHandles s hh rfl hs hinv

/-- C8 witness: teardown of two running stores in an environment where
joining store 7's thread fails; both entries are still removed. -/
theorem dropNode_clears_witness :
    envJoinFail.joinOk 7 = false ∧
    (dropNode envJoinFail ⟨1, [5, 7], [5, 7]⟩).storeHandles = [] ∧
    ∀ id ∈ (⟨1, [5, 7], [5, 7]⟩ : NodeState).storeHandles,
      id ∉ (dropNode envJoinFail ⟨1, [5, 7], [5, 7]⟩).sendchs := by
  have h := dropNode_clears envJoinFail ⟨1, [5, 7], [5, 7]⟩ (by decide)
    (by decide) (by decide)
  exact ⟨by decide, h.1, h.2⟩

/-- C6: when identity recovery returns a concrete node id while the
authority reported the cluster as not bootstrapped, `start` fails with
InconsistentBootstrapState and its effect log is empty — no allocation,
store bootstrap, cluster bootstrap, registration or worker start was
performed. -/
theorem start_inconsistent_bootstrap (env : Env) (s : NodeState)
    (engines : List (Option StoreIdent)) (n : Nat) (ss : List Nat)
    (hne : engines ≠ [])
    (hb : env.isBootstrappedResp = some false)
    (hcs : check_stores env.clusterId engines = .ok (n, ss))
    (hn : n ≠ INVALID_ID) :
    (start env s engines).1 =
      .error (.inconsistentBootstrapState n env.clusterId) ∧
    (start env s engines).2.2 = [] := by
  have hel : engines.isEmpty = false := by
    cases engines with
    | nil => exact absurd rfl hne
    | cons a l => rfl
  constructor <;> simp [start, hel, hb, hcs, hn]

/-- C6 witness: one engine with a record for node 1 while the authority
reports the cluster as not bootstrapped. -/
theorem start_inconsistent_bootstrap_witness :
    (start envNotBoot ⟨0, [], []⟩ [some ⟨1, 1, 1⟩]).1 =
      .error (.inconsistentBootstrapState 1 1) ∧
    (start envNotBoot ⟨0, [], []⟩ [some ⟨1, 1, 1⟩]).2.2 = [] := by
  have h := start_inconsistent_bootstrap envNotBoot ⟨0, [], []⟩
    [some ⟨1, 1, 1⟩] 1 [1] (by decide) rfl (by decide) (by decide)
  exact h

/-- C2 (counterexample): the claim says a `put_store` failure after a store
starts is not fatal and the remaining stores still start.  In the source the
call is wrapped in `try!`, so it is fatal: with two bootstrapped engines and
`put_store` failing for store 1, `start` returns the error, store 1's worker
was spawned, and store 2's worker never is. -/
theorem start_put_store_failure_cex :
    envPutStoreFail.putStoreOk 1 = false ∧
    (start envPutStoreFail ⟨0, [], []⟩ [some ⟨1, 1, 1⟩, some ⟨1, 1, 2⟩]).1 =
      .error (.putStoreFailed 1) ∧
    Effect.spawnWorker 1 ∈
      (start envPutStoreFail ⟨0, [], []⟩ [some ⟨1, 1, 1⟩, some ⟨1, 1, 2⟩]).2.2 ∧
    Effect.spawnWorker 2 ∉
      (start envPutStoreFail ⟨0, [], []⟩ [some ⟨1, 1, 1⟩, some ⟨1, 1, 2⟩]).2.2 := by
  decide

/-- C2 (amended): a `put_store` failure in the store-start loop is fatal —
the loop returns that error, and no worker is spawned in that loop run other
than the failing store's own (the remaining stores are not started). -/
theorem startStoresLoop_put_store_fatal (env : Env) (s : NodeState)
    (sid : Nat) (rest : List Nat)
    (h1 : sid ∉ s.storeHandles) (h2 : env.createStoreOk sid = true)
    (h3 : env.putStoreOk sid = false) :
    (startStoresLoop env s (sid :: rest)).1 = .error (.putStoreFailed sid) ∧
    ∀ j, Effect.spawnWorker j ∈ (startStoresLoop env s (sid :: rest)).2.2 →
      j = sid := by
  constructor <;> simp [startStoresLoop, start_store, h1, h2, h3]

/-- C2 witness: store-start loop over stores 1 and 2, with `put_store`
failing for store 1. -/
theorem startStoresLoop_put_store_fatal_witness :
    (startStoresLoop envPutStoreFail ⟨1, [], []⟩ [1, 2]).1 =
      .error (.putStoreFailed 1) ∧
    ∀ j, Effect.spawnWorker j ∈
        (startStoresLoop envPutStoreFail ⟨1, [], []⟩ [1, 2]).2.2 → j = 1 :=
  startStoresLoop_put_store_fatal envPutStoreFail ⟨1, [], []⟩ 1 [2]
    (by decide) rfl rfl

end TikvNode
